import Mathlib

/-!
Verification of the Inu-Bot repository's core subsystems against its
natural-language specification: the Crash game round engine
(src/cogs/games/crash.py, src/utils/easing.py, src/database/database_manager.py)
and the live stock-feed tracker (src/cogs/roblox_tracker.py).

Python numeric values are embedded as follows: `int` becomes `Int` (or `Nat`
for identifiers), `float` becomes `ℚ` (the claims proved here are order- and
equality-theoretic facts about the exact arithmetic expressions in the source;
they are insensitive to binary-float rounding, which is noted where relevant),
and machine-word arithmetic inside MD5 is `Nat` reduced modulo 2^32 at every
operation.  Fallible operations return a result inductive together with the
unchanged state, mirroring the source's early-return style.
-/

set_option maxRecDepth 100000

namespace InuBot

/-! ## Crash game: outcome generator (src/utils/easing.py, src/cogs/games/crash.py) -/

/-- Source: utils/easing.py, `ease_in_cubic(x) = x * x * x`. -/
def ease_in_cubic (x : ℚ) : ℚ := x * x * x

/-- Source: crash.py `CrashGameInstance._get_crash_point`, the branch taken when
`random.random() >= 0.01`: with `e = 2**32` and `house_edge = 0.99`, it returns
`(e * house_edge - p * e) / (e - p * e)` for the uniform draw `p ∈ [0,1)`.
The float literal `0.99` is embedded as the exact rational 99/100; the ordering
facts proved below hold equally for the binary-float value of `0.99` (which is
also strictly below 1) and are unaffected by rounding, since the exact value of
the quotient stays bounded away from 1 (its supremum over the branch is 0.99). -/
def crash_formula (p : ℚ) : ℚ :=
  let e : ℚ := 2 ^ 32
  let house_edge : ℚ := 99 / 100
  (e * house_edge - p * e) / (e - p * e)

/-- Source: crash.py `CrashGameInstance._get_crash_point`.  The two calls to
`random.random()` are made explicit as the draws `r` (instant-crash test) and
`p` (distribution draw), each uniform on [0,1). -/
def get_crash_point (r p : ℚ) : ℚ :=
  if r < 1 / 100 then 1 else crash_formula p

/-! ## Crash game: round state (src/cogs/games/crash.py, `CrashGameInstance`) -/

/-- Source: crash.py, the per-player record stored in `CrashGameInstance.players`:
`{"bet": int, "user": Member, "cashout_at": float | None}`.  The `user` Member
object is presentation-only (display name) and is not part of the embedded state. -/
structure PlayerData where
  bet : Int
  cashout_at : Option ℚ
deriving DecidableEq

/-- Source: crash.py `CrashGameInstance.__init__` fields.  `players` is an
association list in insertion (join) order, mirroring the Python dict.
`message`/`bot`/`interaction` are presentation-layer handles and not embedded. -/
structure RoundState where
  players : List (Nat × PlayerData)
  current_multiplier : ℚ
  is_betting_open : Bool
  is_running : Bool
  crashed_at : ℚ
deriving DecidableEq

/-- Source: crash.py `CrashGameInstance.__init__`: fresh round with no players,
`current_multiplier = 1.0`, betting open, not running, and `crashed_at`
generated once by `_get_crash_point` (passed here as a parameter). -/
def crash_game_init (crashed_at : ℚ) : RoundState :=
  { players := [], current_multiplier := 1, is_betting_open := true,
    is_running := false, crashed_at := crashed_at }

/-- Source: crash.py `MAX_PLAYERS = 20`. -/
def MAX_PLAYERS : Nat := 20

/-- Source: crash.py `CrashGameInstance.run_game`, one iteration of the
animation loop body:
`progress = min(elapsed / duration, 1.0)`,
`eased_progress = ease_in_cubic(progress)`,
`current_multiplier = 1 + (crashed_at - 1) * eased_progress`,
`current_multiplier = min(current_multiplier, crashed_at)`.
`elapsed = time.time() - start_time_loop` and `duration = 5` are passed
explicitly; successive iterations observe non-decreasing `elapsed`. -/
def run_game_step (s : RoundState) (elapsed duration : ℚ) : RoundState :=
  let progress := min (elapsed / duration) 1
  let eased_progress := ease_in_cubic progress
  let m := 1 + (s.crashed_at - 1) * eased_progress
  { s with current_multiplier := min m s.crashed_at }

/-! ## Ledger (src/database/database_manager.py) -/

/-- Source: database_manager.py, one row of the `economy` table (the columns
touched by `update_balance`; the game-stats columns are independent of the
claims and omitted).  Balances are ℚ because `cashout_player` credits the float
`bet * current_multiplier`, which SQLite stores as REAL. -/
structure EconRow where
  balance : ℚ
  total_earned : ℚ
  total_spent : ℚ
deriving DecidableEq

/-- Source: database_manager.py.  The database state relevant to the claims:
the `users`/`economy` rows keyed by user id.  `add_or_update_user` creates the
`users` row and its `economy` row together, so a single association list keyed
by user id models both: a key is present iff `get_user_profile` finds a row. -/
structure DBState where
  econ : List (Nat × EconRow)
deriving DecidableEq

/-- Source: database_manager.py `get_user_profile` (the presence test that
`update_balance` performs before touching the balance). -/
def get_user_profile (db : DBState) (uid : Nat) : Option EconRow :=
  db.econ.lookup uid

/-- SQL `UPDATE economy SET ... WHERE user_id = ?`: replaces the row of the
(unique, primary-key) user id, leaving every other row unchanged. -/
def db_set_row (db : DBState) (uid : Nat) (row : EconRow) : DBState :=
  ⟨db.econ.map fun p => if p.1 = uid then (uid, row) else p⟩

/-- Source: database_manager.py `DatabaseManager.update_balance`.
Returns False only when `get_user_profile` finds no row (the aiosqlite error
path is I/O failure, not program logic, and is not embedded).  Note the source
performs `balance = balance + amount` UNCONDITIONALLY: there is no check that a
negative `amount` stays within the current balance. -/
def update_balance (db : DBState) (uid : Nat) (amount : ℚ) : Bool × DBState :=
  match get_user_profile db uid with
  | none => (false, db)
  | some row =>
    if amount > 0 then
      (true, db_set_row db uid
        { row with balance := row.balance + amount,
                   total_earned := row.total_earned + amount })
    else
      (true, db_set_row db uid
        { row with balance := row.balance + amount,
                   total_spent := row.total_spent + |amount| })

/-! ## Crash game: player actions (src/cogs/games/crash.py) -/

/-- The distinguishable outcomes of `CrashGameInstance.add_player` (each arm of
the source's early returns, in source order). -/
inductive AddPlayerResult where
  | betting_over
  | already_joined
  | game_full
  | insufficient_funds
  | joined
deriving DecidableEq

/-- Source: crash.py `CrashGameInstance.add_player`.  Checks, in order:
betting phase open, player not already joined, round not full; then attempts
the ledger debit `update_balance(user.id, -bet)` and only on its success
inserts the player record `{"bet": bet, "cashout_at": None}`. -/
def add_player (db : DBState) (s : RoundState) (uid : Nat) (bet : Int) :
    AddPlayerResult × DBState × RoundState :=
  if s.is_betting_open = false then (.betting_over, db, s)
  else if (s.players.lookup uid).isSome then (.already_joined, db, s)
  else if MAX_PLAYERS ≤ s.players.length then (.game_full, db, s)
  else
    let r := update_balance db uid (-(bet : ℚ))
    if r.1 = false then (.insufficient_funds, r.2, s)
    else (.joined, r.2,
      { s with players := s.players ++ [(uid, { bet := bet, cashout_at := none })] })

/-- The distinguishable outcomes of `CrashGameInstance.cashout_player`. -/
inductive CashoutResult where
  | not_in_game
  | already_cashed_out
  | cashed_out (multiplier : ℚ)
deriving DecidableEq

/-- Source: crash.py `CrashGameInstance.cashout_player`.  Rejects unless the
round is running and the caller is a joined player; rejects again if
`cashout_at` is already set; otherwise records
`cashout_at = current_multiplier` and immediately credits
`bet * current_multiplier` through `update_balance`. -/
def cashout_player (db : DBState) (s : RoundState) (uid : Nat) :
    CashoutResult × DBState × RoundState :=
  if s.is_running = false then (.not_in_game, db, s)
  else
    match s.players.lookup uid with
    | none => (.not_in_game, db, s)
    | some pd =>
      if pd.cashout_at ≠ none then (.already_cashed_out, db, s)
      else
        let s1 : RoundState :=
          { s with players := s.players.map fun p =>
              if p.1 = uid then (uid, { p.2 with cashout_at := some s.current_multiplier })
              else p }
        let winnings := (pd.bet : ℚ) * s.current_multiplier
        (.cashed_out s.current_multiplier, (update_balance db uid winnings).2, s1)

/-! ## Crash game: betting lock and round lifecycle (src/cogs/games/crash.py) -/

/-- The outbound (message-channel) effects that `lock_bets` can cause, in the
order they are issued.  `cancel_edit` is the "Game Cancelled" edit of the round
message; `final_frame_edit` is the final "CRASHED" frame that `run_game`
unconditionally pushes after its loop (`run_game` additionally pushes a
real-time-dependent number of intermediate frames, which the idempotence claim
abstracts as part of the single game-run invocation). -/
inductive GameEffect where
  | cancel_edit
  | final_frame_edit
deriving DecidableEq

/-- Source: crash.py `CrashGameInstance.run_game`, net state effect.  The
method sets `is_running = True`, iterates `run_game_step` over increasing
`elapsed` while `current_multiplier < crashed_at` (each step clamps the
multiplier to at most `crashed_at`, and once `elapsed >= duration` the step
yields exactly `crashed_at`, so on loop exit the multiplier equals `crashed_at`
whenever the loop ran; these step facts are proved in the C3 theorem below),
then sets `is_running = False` and pushes the final frame.  If the multiplier
already satisfies `current_multiplier >= crashed_at` on entry, the loop body
never runs and the multiplier is left unchanged. -/
def run_game_result (s : RoundState) : RoundState :=
  { s with is_running := false,
           current_multiplier :=
             if s.current_multiplier < s.crashed_at then s.crashed_at
             else s.current_multiplier }

/-- Source: crash.py `CrashGameInstance.lock_bets`.  Sets `is_betting_open =
False`; with no players it edits the round message to "Game Cancelled" and
returns, otherwise it invokes `run_game`.  The source has NO guard against a
repeated invocation: nothing checks whether betting was already locked. -/
def lock_bets (s : RoundState) (log : List GameEffect) :
    RoundState × List GameEffect :=
  let s1 := { s with is_betting_open := false }
  if s1.players = [] then (s1, log ++ [.cancel_edit])
  else (run_game_result s1, log ++ [.final_frame_edit])

/-- The outcomes of the `/crash` command handler. -/
inductive CrashCmdResult where
  | already_in_progress
  | started
deriving DecidableEq

/-- Python dict assignment `self.active_games[guild_id] = game`: replaces the
value at an existing key, else appends (dict insertion order). -/
def set_active_game (games : List (Nat × RoundState)) (gid : Nat)
    (g : RoundState) : List (Nat × RoundState) :=
  if (games.lookup gid).isSome then
    games.map fun p => if p.1 = gid then (gid, g) else p
  else games ++ [(gid, g)]

/-- Source: crash.py `Crash.crash` (the `/crash` slash command).  Rejects when
the guild's registered game exists (a game object is always truthy) and is
running or still betting; otherwise creates a fresh `CrashGameInstance` (with a
newly generated crash point, passed here as a parameter) and registers it. -/
def crash_command (games : List (Nat × RoundState)) (gid : Nat)
    (crashed_at : ℚ) : CrashCmdResult × List (Nat × RoundState) :=
  match games.lookup gid with
  | some g =>
    if g.is_running || g.is_betting_open then (.already_in_progress, games)
    else (.started, set_active_game games gid (crash_game_init crashed_at))
  | none => (.started, set_active_game games gid (crash_game_init crashed_at))

/-! ## Stock tracker: Python string primitives (src/cogs/roblox_tracker.py)

The tracker canonicalizes snapshots with `str.lower`, `sorted`, and
`json.dumps(..., sort_keys=True, separators=(",", ":"))` (whose default
`ensure_ascii=True` escapes every character outside 0x20..0x7e), then takes
the MD5 hex digest of the UTF-8 bytes.  Each primitive is embedded here
executably.  Python compares strings by code points; `chars_le` is that order. -/

/-- Python string comparison `a <= b`: lexicographic over code points. -/
def chars_le : List Char → List Char → Bool
  | [], _ => true
  | _ :: _, [] => false
  | a :: as, b :: bs => if a < b then true else if b < a then false else chars_le as bs

/-- Python `a <= b` on strings. -/
def str_le (a b : String) : Bool := chars_le a.data b.data

/-- Python `sorted` on a list of strings (ascending, by code points).  Embedded
as insertion sort with the `str_le` order; equal strings are identical, so
stability is immaterial. -/
def py_sorted (l : List String) : List String :=
  List.insertionSort (fun a b => str_le a b = true) l

/-- ASCII letter test (Python `str.title` word boundaries, ASCII fragment). -/
def ascii_is_alpha (c : Char) : Bool :=
  (65 ≤ c.toNat && c.toNat ≤ 90) || (97 ≤ c.toNat && c.toNat ≤ 122)

/-- ASCII uppercasing of one character. -/
def ascii_upper (c : Char) : Char :=
  if 97 ≤ c.toNat && c.toNat ≤ 122 then Char.ofNat (c.toNat - 32) else c

/-- ASCII lowercasing of one character. -/
def ascii_lower (c : Char) : Char :=
  if 65 ≤ c.toNat && c.toNat ≤ 90 then Char.ofNat (c.toNat + 32) else c

/-- Python `str.lower`, ASCII fragment.  (Python also lowercases non-ASCII
letters; every item name handled by the tracker's allow-lists is ASCII, and
the claims proved here only apply lowercasing to such names.) -/
def py_lower (s : String) : String := ⟨s.data.map ascii_lower⟩

/-- Helper for `py_title`: the Bool records whether the previous character was
a letter. -/
def py_title_go : Bool → List Char → List Char
  | _, [] => []
  | prev_alpha, c :: cs =>
    (if ascii_is_alpha c then
       (if prev_alpha then ascii_lower c else ascii_upper c) else c)
      :: py_title_go (ascii_is_alpha c) cs

/-- Python `str.title`, ASCII fragment: uppercase each letter that begins a
run of letters, lowercase the rest of the run. -/
def py_title (s : String) : String := ⟨py_title_go false s.data⟩

/-- Python `dict.get(key)` over a key-ordered association list. -/
def dict_get {α : Type} (key : String) : List (String × α) → Option α
  | [] => none
  | (k, v) :: l => if k = key then some v else dict_get key l

/-- Lowercase hexadecimal digit. -/
def hex_digit (n : Nat) : Char :=
  Char.ofNat (if n < 10 then 48 + n else 87 + n)

/-- Python `json` escape `\uXXXX` (four lowercase hex digits of `n < 0x10000`). -/
def u_escape (n : Nat) : String :=
  "\\u" ++ String.mk
    [hex_digit (n / 4096 % 16), hex_digit (n / 256 % 16),
     hex_digit (n / 16 % 16), hex_digit (n % 16)]

/-- Python `json.dumps` escaping of one character with the default
`ensure_ascii=True`: short escapes for the quote, backslash and the usual
control characters, `\uXXXX` for the other controls and for everything outside
0x20..0x7e, with a surrogate pair above 0xffff. -/
def json_escape_char (c : Char) : String :=
  let n := c.toNat
  if n = 34 then "\\\""
  else if n = 92 then "\\\\"
  else if n = 8 then "\\b"
  else if n = 9 then "\\t"
  else if n = 10 then "\\n"
  else if n = 12 then "\\f"
  else if n = 13 then "\\r"
  else if n < 32 then u_escape n
  else if n < 127 then String.singleton c
  else if n < 65536 then u_escape n
  else u_escape (55296 + (n - 65536) / 1024) ++ u_escape (56320 + (n - 65536) % 1024)

/-- Python `json.dumps` of a string value (ensure_ascii, no indent). -/
def json_str (s : String) : String :=
  "\"" ++ String.join (s.data.map json_escape_char) ++ "\""

/-- UTF-8 encoding of one character, as byte values. -/
def utf8_encode_char (c : Char) : List Nat :=
  let n := c.toNat
  if n < 128 then [n]
  else if n < 2048 then [192 + n / 64, 128 + n % 64]
  else if n < 65536 then [224 + n / 4096, 128 + n / 64 % 64, 128 + n % 64]
  else [240 + n / 262144, 128 + n / 4096 % 64, 128 + n / 64 % 64, 128 + n % 64]

/-- Python `str.encode("utf-8")`, as a list of byte values. -/
def utf8_encode (s : String) : List Nat :=
  (s.data.map utf8_encode_char).flatten

/-! ## MD5 (Python `hashlib.md5(...).hexdigest()`), RFC 1321

Machine words are `Nat` values kept below 2^32 by reducing every addition and
shift modulo 2^32; bitwise complement of a word `w` is `w ^^^ 0xffffffff`. -/

/-- Reduction modulo 2^32. -/
def u32 (n : Nat) : Nat := n % 4294967296

/-- Left-rotation of a 32-bit word (`x < 2^32`, `0 < s < 32`). -/
def rotl32 (x s : Nat) : Nat := u32 (x <<< s) ||| (x >>> (32 - s))

/-- The MD5 sine-derived constant table `K[i] = floor(2^32 * |sin(i+1)|)`. -/
def md5_K : List Nat :=
  [3614090360, 3905402710, 606105819, 3250441966, 4118548399, 1200080426,
   2821735955, 4249261313, 1770035416, 2336552879, 4294925233, 2304563134,
   1804603682, 4254626195, 2792965006, 1236535329, 4129170786, 3225465664,
   643717713, 3921069994, 3593408605, 38016083, 3634488961, 3889429448,
   568446438, 3275163606, 4107603335, 1163531501, 2850285829, 4243563512,
   1735328473, 2368359562, 4294588738, 2272392833, 1839030562, 4259657740,
   2763975236, 1272893353, 4139469664, 3200236656, 681279174, 3936430074,
   3572445317, 76029189, 3654602809, 3873151461, 530742520, 3299628645,
   4096336452, 1126891415, 2878612391, 4237533241, 1700485571, 2399980690,
   4293915773, 2240044497, 1873313359, 4264355552, 2734768916, 1309151649,
   4149444226, 3174756917, 718787259, 3951481745]

/-- The MD5 per-round left-rotation amounts. -/
def md5_S : List Nat :=
  [7, 12, 17, 22, 7, 12, 17, 22, 7, 12, 17, 22, 7, 12, 17, 22,
   5, 9, 14, 20, 5, 9, 14, 20, 5, 9, 14, 20, 5, 9, 14, 20,
   4, 11, 16, 23, 4, 11, 16, 23, 4, 11, 16, 23, 4, 11, 16, 23,
   6, 10, 15, 21, 6, 10, 15, 21, 6, 10, 15, 21, 6, 10, 15, 21]

/-- The MD5 nonlinear function of round `i`. -/
def md5_F (i b c d : Nat) : Nat :=
  if i < 16 then (b &&& c) ||| ((b ^^^ 4294967295) &&& d)
  else if i < 32 then (d &&& b) ||| ((d ^^^ 4294967295) &&& c)
  else if i < 48 then b ^^^ c ^^^ d
  else c ^^^ (b ||| (d ^^^ 4294967295))

/-- The MD5 message-word index of round `i`. -/
def md5_G (i : Nat) : Nat :=
  if i < 16 then i
  else if i < 32 then (5 * i + 1) % 16
  else if i < 48 then (3 * i + 5) % 16
  else (7 * i) % 16

/-- One MD5 round on the state `(a, b, c, d)` with message words `M`. -/
def md5_round (M : List Nat) (st : Nat × Nat × Nat × Nat) (i : Nat) :
    Nat × Nat × Nat × Nat :=
  let (a, b, c, d) := st
  let tmp := u32 (a + md5_F i b c d + md5_K.getD i 0 + M.getD (md5_G i) 0)
  (d, u32 (b + rotl32 tmp (md5_S.getD i 0)), b, c)

/-- One 512-bit MD5 block: 64 rounds, then the feed-forward addition. -/
def md5_block (st : Nat × Nat × Nat × Nat) (M : List Nat) :
    Nat × Nat × Nat × Nat :=
  let r := (List.range 64).foldl (md5_round M) st
  (u32 (st.1 + r.1), u32 (st.2.1 + r.2.1), u32 (st.2.2.1 + r.2.2.1),
   u32 (st.2.2.2 + r.2.2.2))

/-- MD5 padding: append 0x80, zero-fill to 56 mod 64 bytes, then the bit
length as eight little-endian bytes. -/
def md5_pad (msg : List Nat) : List Nat :=
  let len := msg.length
  let zeros := (119 - len % 64) % 64
  let bitlen := len * 8 % 18446744073709551616
  msg ++ [128] ++ List.replicate zeros 0
      ++ ((List.range 8).map fun i => bitlen >>> (8 * i) % 256)

/-- Helper for `chunks64`: structural recursion on a fuel bound (one unit of
fuel per chunk suffices since every chunk consumes at least one byte). -/
def chunks64_go : Nat → List Nat → List (List Nat)
  | 0, _ => []
  | _ + 1, [] => []
  | fuel + 1, l => l.take 64 :: chunks64_go fuel (l.drop 64)

/-- Split a byte list into 64-byte chunks. -/
def chunks64 (l : List Nat) : List (List Nat) := chunks64_go l.length l

/-- The sixteen little-endian 32-bit words of one 64-byte block. -/
def block_words (block : List Nat) : List Nat :=
  (List.range 16).map fun i =>
    block.getD (4 * i) 0 + 256 * block.getD (4 * i + 1) 0
      + 65536 * block.getD (4 * i + 2) 0 + 16777216 * block.getD (4 * i + 3) 0

/-- The four little-endian bytes of a 32-bit word. -/
def word_bytes (w : Nat) : List Nat :=
  (List.range 4).map fun i => w >>> (8 * i) % 256

/-- The sixteen digest bytes of an MD5 computation over a byte list. -/
def md5_digest (msg : List Nat) : List Nat :=
  let st := (chunks64 (md5_pad msg)).foldl
    (fun st blk => md5_block st (block_words blk))
    (1732584193, 4023233417, 2562383102, 271733878)
  word_bytes st.1 ++ word_bytes st.2.1 ++ word_bytes st.2.2.1 ++ word_bytes st.2.2.2

/-- Two lowercase hex characters of a byte. -/
def byte_hex (n : Nat) : String := String.mk [hex_digit (n / 16 % 16), hex_digit (n % 16)]

/-- Python `hashlib.md5(bytes).hexdigest()`. -/
def md5_hex (msg : List Nat) : String :=
  String.join ((md5_digest msg).map byte_hex)

/-! ## Stock tracker: snapshot model (src/cogs/roblox_tracker.py) -/

/-- Source: roblox_tracker.py, one element of a category array in the feed
payload: `{name, quantity}`.  A missing or empty `name` is embedded as `""`
(the source filters on the truthiness of `item.get("name")`, which drops
exactly those). -/
structure StockItem where
  name : String
  quantity : Int
deriving DecidableEq

/-- Source: roblox_tracker.py, the `data` payload of one websocket message:
the three tracked category arrays (`CATEGORY_MAPPING` keys) and the
`weather.type` label.  `weather = none` embeds an absent or non-dict
`weather` field as well as a missing `type` key (all of which the source
defaults).  Untracked payload keys (for example `weatherHistory`) do not enter
the fingerprint or the notable-item extraction and are not embedded. -/
structure StockData where
  seeds : List StockItem
  gear : List StockItem
  eggs : List StockItem
  weather : Option String
deriving DecidableEq

/-- Source: `data.get(category, [])` for the three tracked category keys. -/
def category_items (d : StockData) : String → List StockItem
  | "seeds" => d.seeds
  | "gear" => d.gear
  | "eggs" => d.eggs
  | _ => []

/-- Source: roblox_tracker.py `RobloxTracker._get_weather_type`: the
`weather.type` string, defaulting to "Bình thường". -/
def get_weather_type (d : StockData) : String :=
  d.weather.getD "Bình thường"

/-- Source: roblox_tracker.py `CATEGORY_MAPPING` (insertion order `gear`,
`seeds`, `eggs`): key, display name, emoji. -/
def CATEGORY_MAPPING : List (String × String × String) :=
  [("gear", "GEAR STOCK", "🛠️"), ("seeds", "SEEDS STOCK", "🌱"),
   ("eggs", "EGG STOCK", "🥚")]

/-- Source: roblox_tracker.py `_calculate_data_hash`'s per-category name
list: `[item.get("name", "").lower() for item in items if item.get("name")]`.
Note this is a LIST comprehension: duplicate names are kept. -/
def hash_names (items : List StockItem) : List String :=
  (items.filter fun it => it.name ≠ "").map fun it => py_lower it.name

/-- Source: roblox_tracker.py `_calculate_data_hash`'s `relevant_data["items"]`
dictionary: for each category key in `sorted(CATEGORY_MAPPING)`, when the
category's raw item list is non-empty (the source tests `if items:` BEFORE
filtering out nameless items), the sorted lowered name list. -/
def relevant_categories (d : StockData) : List (String × List String) :=
  (py_sorted (CATEGORY_MAPPING.map Prod.fst)).filterMap fun cat =>
    if category_items d cat = [] then none
    else some (cat, py_sorted (hash_names (category_items d cat)))

/-- Source: the `json.dumps(relevant_data, sort_keys=True,
separators=(",", ":"))` canonical string of `_calculate_data_hash`.
`sort_keys` puts `"items"` before `"weather"`, and the category keys inside
`"items"` are already in sorted order.  Braces are written with `\x7b`/`\x7d`
escapes. -/
def canonical_string (d : StockData) : String :=
  "\x7b" ++ json_str "items" ++ ":" ++ "\x7b"
    ++ String.intercalate ","
        ((relevant_categories d).map fun p =>
          json_str p.1 ++ ":[" ++ String.intercalate "," (p.2.map json_str) ++ "]")
    ++ "\x7d," ++ json_str "weather" ++ ":" ++ json_str (get_weather_type d)
    ++ "\x7d"

/-- Source: roblox_tracker.py `RobloxTracker._calculate_data_hash` for a
non-empty payload: the MD5 hex digest of the UTF-8 bytes of the canonical
string. -/
def calculate_data_hash (d : StockData) : String :=
  md5_hex (utf8_encode (canonical_string d))

/-- Source: the `if not data: return ""` guard of `_calculate_data_hash`
(an empty `data` dict, which `_process_websocket_message` skips upstream). -/
def calculate_data_hash_opt : Option StockData → String
  | none => ""
  | some d => calculate_data_hash d

/-- Source: roblox_tracker.py `NOTABLE_SEEDS`. -/
def NOTABLE_SEEDS : List String :=
  ["Beanstalk", "Moon Blossom", "Hive Fruit", "Sugar Apple", "Elephant Ears",
   "Ember Lily", "Cacao", "Sunflower", "Pepper", "Grape", "Mushroom",
   "Traveler's Fruit", "Rosy Delight", "Dragon Pepper", "Lotus",
   "Firework Flower", "Candy Blossom"]

/-- Source: roblox_tracker.py `NOTABLE_GEAR`. -/
def NOTABLE_GEAR : List String :=
  ["Advanced Sprinkler", "Star Caller", "Night Staff", "Godly Sprinkler",
   "Chocolate Sprinkler", "Magnifying Glass", "Master Sprinkler",
   "Cleaning Spray", "Favorite Tool", "Harvest Tool", "Friendship Pot",
   "Honey Sprinkler", "Lightning Rod", "Recall Wrench"]

/-- Source: roblox_tracker.py `NOTABLE_EGGS`. -/
def NOTABLE_EGGS : List String :=
  ["Legendary Egg", "Mythical Egg", "Paradise Egg", "Bee Egg", "Bug Egg",
   "Night Egg"]

/-- Source: roblox_tracker.py `NOTABLE_MAP` (insertion order `seeds`,
`gear`, `eggs`): category key, allow-list, display name. -/
def NOTABLE_MAP : List (String × List String × String) :=
  [("seeds", (NOTABLE_SEEDS, "Seeds")), ("gear", (NOTABLE_GEAR, "Gear")),
   ("eggs", (NOTABLE_EGGS, "Eggs"))]

/-- The items of a category that carry a (truthy) name: Python's
`[... for item in new_data.get(category_key, []) if item.get("name")]`. -/
def named_items (items : List StockItem) : List StockItem :=
  items.filter fun it => it.name ≠ ""

/-- Source: the dict comprehension `original_casing_map = {item["name"].lower():
item["name"] for item in new_data.get(category_key, [])}` of
`_get_notable_items` — for each lowered name, the LAST matching item's original
casing wins, as in a Python dict comprehension.  (The source builds this map
without the name-truthiness filter; an item with no name contributes the key
`""`, which is never looked up since every queried key comes from the filtered
name set.)  Embedded as a lookup of the last item whose lowered name matches. -/
def original_casing (items : List StockItem) (low : String) : Option String :=
  ((items.filter fun it => py_lower it.name = low).getLast?).map (·.name)

/-- Source: roblox_tracker.py `RobloxTracker._get_notable_items`, one
category: the set of lowered current item names intersected with the lowered
allow-list, mapped back through the original-casing map (with the dict-get
default `name.title()`, which is unreachable because every member of the
intersection is the lowered name of some named item) and sorted. -/
def notable_items_for (items : List StockItem) (notable_list : List String) :
    List String :=
  let new_set := ((named_items items).map fun it => py_lower it.name).dedup
  let notable_list_lower := (notable_list.map py_lower).dedup
  let current_notables := new_set.filter fun n => n ∈ notable_list_lower
  py_sorted (current_notables.map fun low =>
    (original_casing items low).getD (py_title low))

/-- Source: roblox_tracker.py `RobloxTracker._get_notable_items`.  Builds the
per-category notable-item dictionary FROM THE NEW SNAPSHOT ALONE: the method
receives only `new_data` and consults no previous snapshot. -/
def get_notable_items (d : StockData) : List (String × List String) :=
  NOTABLE_MAP.filterMap fun e =>
    let names := notable_items_for (category_items d e.1) e.2.1
    if names = [] then none else some (e.1, names)

/-- Source: roblox_tracker.py `RobloxTracker._generate_change_summary`: the
supplementary-alert text listing the notable items by category (keys iterated
in sorted order), or `""` when there are none. -/
def generate_change_summary (d : StockData) : String :=
  let notable_items_by_cat := get_notable_items d
  if notable_items_by_cat = [] then ""
  else
    "**Vật phẩm hiếm trong kho:**" ++ String.join
      ((py_sorted (notable_items_by_cat.map Prod.fst)).map fun cat =>
        let items := (dict_get cat notable_items_by_cat).getD []
        let emoji := ((dict_get cat CATEGORY_MAPPING).map (·.2)).getD "🔹"
        let category_name := ((dict_get cat NOTABLE_MAP).map (·.2)).getD ""
        "\n**" ++ emoji ++ " " ++ category_name ++ "**\n"
          ++ String.intercalate "\n" (items.map fun it => "• " ++ it))

/-! ## Stock tracker: per-channel delivery and fan-out
(src/cogs/roblox_tracker.py `_handle_update`, `_update_channel`,
`_send_notification`)

`_handle_update` wraps each channel's `_update_channel` in its own
`asyncio.create_task` and awaits them with `asyncio.gather(...,
return_exceptions=True)`: every task runs to completion (or to its own
exception) regardless of the others, and each exception is returned in the
task's slot of the result list instead of being raised.  Each task reads and
writes only its own channel's messages and its own channel's database keys
(`stock_status_messages` row and `last_notification_channel_<id>` config key),
so the embedding gives each channel its own `ChanState` and models the gather
as the list of independent per-channel outcomes. -/

/-- The per-channel slice of the world that `_update_channel` touches:
the tracked status-message id (`stock_status_messages` row), the tracked
alert-message id (`last_notification_channel_<id>` config value), the set of
message ids that exist in the channel, a fresh-id allocator, and a fault
switch: `alert_fetch_raises` injects the failure mode in which
`channel.fetch_message(last_noti_id)` inside `_send_notification` raises an
HTTP error other than NotFound/Forbidden — the one exception class that
`_update_channel` does not catch locally, so it propagates into the gather. -/
structure ChanState where
  status_msg : Option Nat
  alert_msg : Option Nat
  messages : List Nat
  next_id : Nat
  alert_fetch_raises : Bool
deriving DecidableEq

/-- A task outcome as `asyncio.gather(..., return_exceptions=True)` reports
it: the completed channel state, or the raised exception together with the
channel state at the moment of the raise (the work already done stays done). -/
inductive ChanOutcome where
  | completed (final : ChanState)
  | raised (partial_state : ChanState)
deriving DecidableEq

/-- Sending a message to the channel: the new message id is allocated and
recorded. -/
def chan_send (c : ChanState) : Nat × ChanState :=
  (c.next_id, { c with messages := c.messages ++ [c.next_id],
                       next_id := c.next_id + 1 })

/-- Source: roblox_tracker.py `RobloxTracker._send_notification`: fetch and
delete the previously tracked alert message (NotFound/Forbidden ignored; any
other HTTP error of the fetch propagates — the injected fault), then send the
new alert and store its id.  (The send itself is wrapped in its own
try/except in the source; its failure is not a modelled fault.) -/
def send_notification (c : ChanState) : ChanOutcome :=
  match c.alert_msg with
  | some last_noti_id =>
    if c.alert_fetch_raises then .raised c
    else
      let c1 := if last_noti_id ∈ c.messages then
          { c with messages := c.messages.erase last_noti_id }
        else c
      let r := chan_send c1
      .completed { r.2 with alert_msg := some r.1 }
  | none =>
    let r := chan_send c
    .completed { r.2 with alert_msg := some r.1 }

/-- Source: roblox_tracker.py `RobloxTracker._update_channel`, the
status-message half: edit the tracked message in place if it still exists;
on NotFound/Forbidden clear the tracked id and send a fresh status message,
recording its id.  The whole half is wrapped in `try/except
discord.HTTPException`, so its errors never propagate; editing does not
change the embedded state (message content is not tracked). -/
def update_status (c : ChanState) : ChanState :=
  match c.status_msg with
  | some message_id =>
    if message_id ∈ c.messages then c
    else
      let c1 := { c with status_msg := none }
      let r := chan_send c1
      { r.2 with status_msg := some r.1 }
  | none =>
    let r := chan_send c
    { r.2 with status_msg := some r.1 }

/-- Source: roblox_tracker.py `RobloxTracker._update_channel`: when the change
summary is non-empty, first the supplementary alert (whose uncaught fetch
error aborts this channel's task), then the status-message update. -/
def update_channel (has_summary : Bool) (c : ChanState) : ChanOutcome :=
  if has_summary then
    match send_notification c with
    | .raised partial_state => .raised partial_state
    | .completed c1 => .completed (update_status c1)
  else .completed (update_status c)

/-- Source: roblox_tracker.py `RobloxTracker._handle_update`: the gather of
all per-channel update tasks (first component: each channel id with its task's
outcome, in channel order) and the error log written afterwards (second
component: the channel ids whose task raised, each logged with its identity). -/
def handle_update (has_summary : Bool) (channels : List (Nat × ChanState)) :
    List (Nat × ChanOutcome) × List Nat :=
  let results := channels.map fun p => (p.1, update_channel has_summary p.2)
  (results, results.filterMap fun p =>
    match p.2 with
    | .raised _ => some p.1
    | .completed _ => none)

/-! ## Helper lemmas -/

/-- Association-list lookup at the head key. -/
theorem lookup_cons_self {β : Type} (k : Nat) (b : β) (l : List (Nat × β)) :
    ((k, b) :: l).lookup k = some b := by simp [List.lookup]

/-- Association-list lookup skipping a head entry with a different key. -/
theorem lookup_cons_ne {β : Type} {a k : Nat} (b : β) (l : List (Nat × β))
    (h : a ≠ k) : ((a, b) :: l).lookup k = l.lookup k := by
  simp only [List.lookup]
  rw [show (k == a) = false from by simpa using Ne.symm h]

/-- Looking up a key after updating exactly that key's entries. -/
theorem lookup_map_update {β : Type} (l : List (Nat × β)) (k : Nat) (f : β → β) :
    (l.map fun p => if p.1 = k then (k, f p.2) else p).lookup k
      = (l.lookup k).map f := by
  induction l with
  | nil => rfl
  | cons hd tl ih =>
    obtain ⟨a, b⟩ := hd
    simp only [List.map_cons]
    by_cases h : a = k
    · subst h
      rw [if_pos rfl, lookup_cons_self, lookup_cons_self]
      rfl
    · rw [if_neg (by simpa using h)]
      rw [lookup_cons_ne b _ h]
      rw [lookup_cons_ne b tl h]
      exact ih

/-- Lookup distributes over append when the key misses the front part. -/
theorem lookup_append_of_none {β : Type} (l1 l2 : List (Nat × β)) (k : Nat)
    (h : l1.lookup k = none) : (l1 ++ l2).lookup k = l2.lookup k := by
  induction l1 with
  | nil => rfl
  | cons hd tl ih =>
    obtain ⟨a, b⟩ := hd
    by_cases hk : a = k
    · subst hk
      rw [lookup_cons_self] at h
      exact absurd h (by simp)
    · rw [lookup_cons_ne b tl hk] at h
      rw [List.cons_append, lookup_cons_ne b _ hk]
      exact ih h

/-- Whatever the sign of the amount, `update_balance` adds it to the stored
balance of an existing user (both source branches execute
`balance = balance + amount`; they differ only in the earned/spent counters). -/
theorem update_balance_adds (db : DBState) (uid : Nat) (amount : ℚ)
    (row : EconRow) (hrow : get_user_profile db uid = some row) :
    (update_balance db uid amount).1 = true ∧
    ((update_balance db uid amount).2.econ.lookup uid).map EconRow.balance
      = some (row.balance + amount) := by
  have hset : ∀ r : EconRow,
      ((db_set_row db uid r).econ.lookup uid).map EconRow.balance
        = some r.balance := by
    intro r
    unfold db_set_row
    have hm := lookup_map_update db.econ uid (fun _ => r)
    simp only at hm
    unfold get_user_profile at hrow
    rw [hm, hrow]
    rfl
  unfold update_balance
  simp only [hrow]
  by_cases h : amount > 0
  · rw [if_pos h]
    exact ⟨rfl, hset _⟩
  · rw [if_neg h]
    exact ⟨rfl, hset _⟩

/-- The Python string order `chars_le` is total. -/
theorem chars_le_total (a : List Char) : ∀ b, chars_le a b = true ∨ chars_le b a = true := by
  induction a with
  | nil => intro b; left; rfl
  | cons x xs ih =>
    intro b
    cases b with
    | nil => right; rfl
    | cons y ys =>
      rcases lt_trichotomy x y with h | h | h
      · left; simp [chars_le, h]
      · subst h
        rcases ih ys with h2 | h2
        · left; simp [chars_le, lt_irrefl, h2]
        · right; simp [chars_le, lt_irrefl, h2]
      · right; simp [chars_le, h]

/-- The Python string order `chars_le` is transitive. -/
theorem chars_le_trans (a : List Char) :
    ∀ b c, chars_le a b = true → chars_le b c = true → chars_le a c = true := by
  induction a with
  | nil => intro b c _ _; rfl
  | cons x xs ih =>
    intro b c h1 h2
    cases b with
    | nil => simp [chars_le] at h1
    | cons y ys =>
      cases c with
      | nil => simp [chars_le] at h2
      | cons z zs =>
        simp only [chars_le] at h1 h2 ⊢
        rcases lt_trichotomy x y with hxy | hxy | hxy
        · rcases lt_trichotomy y z with hyz | hyz | hyz
          · rw [if_pos (lt_trans hxy hyz)]
          · subst hyz; rw [if_pos hxy]
          · rw [if_neg (not_lt.mpr hyz.le), if_pos hyz] at h2; simp at h2
        · subst hxy
          rw [if_neg (lt_irrefl x), if_neg (lt_irrefl x)] at h1
          rcases lt_trichotomy x z with hxz | hxz | hxz
          · rw [if_pos hxz]
          · subst hxz
            rw [if_neg (lt_irrefl x), if_neg (lt_irrefl x)] at h2
            rw [if_neg (lt_irrefl x), if_neg (lt_irrefl x)]
            exact ih ys zs h1 h2
          · rw [if_neg (not_lt.mpr hxz.le), if_pos hxz] at h2; simp at h2
        · rw [if_neg (not_lt.mpr hxy.le), if_pos hxy] at h1; simp at h1

/-- The Python string order `chars_le` is antisymmetric. -/
theorem chars_le_antisymm (a : List Char) :
    ∀ b, chars_le a b = true → chars_le b a = true → a = b := by
  induction a with
  | nil => intro b _ h2; cases b with
    | nil => rfl
    | cons y ys => simp [chars_le] at h2
  | cons x xs ih =>
    intro b h1 h2
    cases b with
    | nil => simp [chars_le] at h1
    | cons y ys =>
      simp only [chars_le] at h1 h2
      rcases lt_trichotomy x y with hxy | hxy | hxy
      · rw [if_neg (not_lt.mpr hxy.le), if_pos hxy] at h2; simp at h2
      · subst hxy
        rw [if_neg (lt_irrefl x), if_neg (lt_irrefl x)] at h1 h2
        rw [ih ys h1 h2]
      · rw [if_neg (not_lt.mpr hxy.le), if_pos hxy] at h1; simp at h1

instance : IsTotal String fun a b => str_le a b = true :=
  ⟨fun a b => chars_le_total a.data b.data⟩

instance : IsTrans String fun a b => str_le a b = true :=
  ⟨fun a b c => chars_le_trans a.data b.data c.data⟩

instance : IsAntisymm String fun a b => str_le a b = true :=
  ⟨fun a b h1 h2 => by
    cases a; cases b
    exact congrArg String.mk (chars_le_antisymm _ _ h1 h2)⟩

/-- Python `sorted` returns a permutation of its input. -/
theorem py_sorted_perm (l : List String) : (py_sorted l).Perm l :=
  List.perm_insertionSort _ l

/-- Membership is preserved by `py_sorted`. -/
theorem mem_py_sorted {a : String} {l : List String} : a ∈ py_sorted l ↔ a ∈ l :=
  (py_sorted_perm l).mem_iff

/-- Python `sorted` depends only on the multiset of its input: permuted
inputs sort to the same list. -/
theorem py_sorted_eq_of_perm {l1 l2 : List String} (h : l1.Perm l2) :
    py_sorted l1 = py_sorted l2 :=
  List.eq_of_perm_of_sorted
    ((py_sorted_perm l1).trans (h.trans (py_sorted_perm l2).symm))
    (List.sorted_insertionSort _ l1) (List.sorted_insertionSort _ l2)

/-- The sorted tracked category keys (`sorted(CATEGORY_MAPPING)`). -/
theorem sorted_category_keys :
    py_sorted (CATEGORY_MAPPING.map Prod.fst) = ["eggs", "gear", "seeds"] := by
  decide

/-- Monotonicity of the cubic easing curve on nonnegative inputs. -/
theorem ease_in_cubic_mono {a b : ℚ} (ha : 0 ≤ a) (hab : a ≤ b) :
    ease_in_cubic a ≤ ease_in_cubic b := by
  unfold ease_in_cubic
  nlinarith [sq_nonneg (a + b), sq_nonneg (a - b), mul_nonneg ha (le_trans ha hab)]

/-! ## Embedding cross-checks

The MD5 embedding reproduces the RFC 1321 test vectors, and the canonical
string and fingerprint of a sample payload agree byte-for-byte with what
CPython's `json.dumps` and `hashlib.md5(...).hexdigest()` produce for the same
payload. -/

/-- RFC 1321 test vector: MD5 of the empty message. -/
theorem md5_rfc_vector_empty :
    md5_hex (utf8_encode "") = "d41d8cd98f00b204e9800998ecf8427e" := by decide

/-- RFC 1321 test vector: MD5 of "abc". -/
theorem md5_rfc_vector_abc :
    md5_hex (utf8_encode "abc") = "900150983cd24fb0d6963f7d28e17f72" := by decide

/-- The canonical string of a sample payload, exactly as
`json.dumps({"items": Map "seeds" to ["cacao"], "weather": "Rain"},
sort_keys=True, separators=(",", ":"))` renders it. -/
theorem canonical_string_sample :
    canonical_string ⟨[⟨"Cacao", 2⟩], [], [], some "Rain"⟩
      = "\x7b\"items\":\x7b\"seeds\":[\"cacao\"]\x7d,\"weather\":\"Rain\"\x7d" := by
  decide

/-- The fingerprint of the sample payload, exactly as CPython computes it. -/
theorem data_hash_sample :
    calculate_data_hash ⟨[⟨"Cacao", 2⟩], [], [], some "Rain"⟩
      = "ce48a3ecd383b512c8f47ca065407851" := by decide

/-! ## Claim C1: the crash-point generator -/

/-- C1.  The spec says the generator returns exactly 1.00 with probability
0.01 and otherwise clamps `(K*e_h - u*K) / (K - u*K)` to be at least 1.00, so
that every returned crash point is ≥ 1.00.  The source has NO clamp, and the
formula as written is strictly below 1 for every draw `p ∈ [0,1)`: this
theorem shows the instant branch (r < 0.01 gives exactly 1), and that every
other draw produces a crash point strictly BELOW 1.00 — at the concrete draw
p = 1/2 the generator returns 0.98.  The code contradicts the spec (and its own
docstring, which presents 1.00x as the minimal, "instant crash" multiplier). -/
theorem C1_crash_point_below_one :
    (∀ r p : ℚ, r < 1 / 100 → get_crash_point r p = 1) ∧
    (∀ r p : ℚ, 1 / 100 ≤ r → 0 ≤ p → p < 1 →
      get_crash_point r p = crash_formula p ∧ get_crash_point r p < 1) ∧
    get_crash_point (1 / 2) (1 / 2) = 49 / 50 := by
  refine ⟨fun r p hr => by unfold get_crash_point; rw [if_pos hr],
    fun r p hr hp0 hp1 => ?_, ?_⟩
  · have hbr : ¬ r < 1 / 100 := not_lt.mpr hr
    have heq : get_crash_point r p = crash_formula p := by
      unfold get_crash_point; rw [if_neg hbr]
    refine ⟨heq, ?_⟩
    rw [heq]
    unfold crash_formula
    have hden : (0 : ℚ) < 2 ^ 32 - p * 2 ^ 32 := by nlinarith
    rw [div_lt_one hden]
    nlinarith
  · have hbr : ¬ (1 / 2 : ℚ) < 1 / 100 := by norm_num
    unfold get_crash_point
    rw [if_neg hbr]
    unfold crash_formula
    norm_num

/-! ## Claim C2: debits are not checked against the balance -/

/-- C2.  The spec says a debit whose magnitude exceeds the current balance
makes `update_balance` return failure with no change, so that a crash-game
join with insufficient funds is declined.  The source checks only that the
user EXISTS and then adds the (negative) amount unconditionally: for a user
with balance 0, a debit of 100 returns success and leaves the balance at -100,
and the corresponding crash-game join is accepted, registering the player.
The caller's own failure message ("You don't have enough funds for that bet")
documents the intended behaviour; the check is simply missing. -/
theorem C2_overdraft_debit_succeeds :
    update_balance ⟨[(1, ⟨0, 0, 0⟩)]⟩ 1 (-100)
      = (true, ⟨[(1, ⟨-100, 0, 100⟩)]⟩) ∧
    add_player ⟨[(1, ⟨0, 0, 0⟩)]⟩ (crash_game_init (3 / 2)) 1 100
      = (.joined, ⟨[(1, ⟨-100, 0, 100⟩)]⟩,
          { crash_game_init (3 / 2) with players := [(1, ⟨100, none⟩)] }) := by
  constructor
  · norm_num [update_balance, get_user_profile, db_set_row, List.lookup]
  · norm_num [add_player, update_balance, get_user_profile, db_set_row,
      crash_game_init, MAX_PLAYERS, List.lookup]

/-! ## Claim C3: multiplier evolution -/

/-- C3.  The spec says `currentMultiplier` starts at 1.0, is non-decreasing
during Running, never exceeds `crashPoint`, and is frozen at `crashPoint` on
settlement.  The animation-step facts all hold — every update is clamped to
`crashed_at`, updates are monotone in elapsed time, stay at least 1, and reach
exactly `crashed_at` once `elapsed >= duration` — PROVIDED `crashed_at >= 1`.
But the source's generator (see C1) actually returns crash points BELOW 1
outside the instant branch: at draw p = 1/2 it returns 0.98, and a round
created with that crash point starts with `current_multiplier = 1.0 >
crashed_at`, violating "never exceeds crashPoint" from the first instant (the
animation loop then exits immediately, settling with multiplier 1.0 ≠
crashPoint).  The round engine is correct; the generator bug breaks the
invariant. -/
theorem C3_multiplier_evolution :
    (∀ c : ℚ, (crash_game_init c).current_multiplier = 1) ∧
    (∀ (s : RoundState) (e d : ℚ),
      (run_game_step s e d).current_multiplier ≤ s.crashed_at) ∧
    (∀ (s : RoundState) (e1 e2 d : ℚ), 1 ≤ s.crashed_at → 0 ≤ e1 → e1 ≤ e2 →
      0 < d → (run_game_step s e1 d).current_multiplier
        ≤ (run_game_step s e2 d).current_multiplier) ∧
    (∀ (s : RoundState) (e d : ℚ), 1 ≤ s.crashed_at → 0 ≤ e → 0 < d →
      1 ≤ (run_game_step s e d).current_multiplier) ∧
    (∀ (s : RoundState) (e d : ℚ), d ≤ e → 0 < d →
      (run_game_step s e d).current_multiplier = s.crashed_at) ∧
    (crash_formula (1 / 2) = 49 / 50 ∧
      (crash_game_init (crash_formula (1 / 2))).crashed_at
        < (crash_game_init (crash_formula (1 / 2))).current_multiplier) := by
  have hform : crash_formula (1 / 2) = 49 / 50 := by
    unfold crash_formula; norm_num
  refine ⟨fun c => rfl, fun s e d => min_le_right _ _, ?_, ?_, ?_, hform, ?_⟩
  · intro s e1 e2 d hc he1 he12 hd
    unfold run_game_step
    simp only
    have hp1 : (0 : ℚ) ≤ min (e1 / d) 1 :=
      le_min (div_nonneg he1 hd.le) zero_le_one
    have hp12 : min (e1 / d) 1 ≤ min (e2 / d) 1 :=
      min_le_min (div_le_div_of_nonneg_right he12 hd.le) le_rfl
    have heased := ease_in_cubic_mono hp1 hp12
    have hc1 : (0 : ℚ) ≤ s.crashed_at - 1 := by linarith
    exact min_le_min (by nlinarith) le_rfl
  · intro s e d hc he hd
    unfold run_game_step
    simp only
    have hp0 : (0 : ℚ) ≤ min (e / d) 1 :=
      le_min (div_nonneg he hd.le) zero_le_one
    have hm : (1 : ℚ) ≤ 1 + (s.crashed_at - 1) * ease_in_cubic (min (e / d) 1) := by
      have : (0 : ℚ) ≤ ease_in_cubic (min (e / d) 1) := by
        unfold ease_in_cubic; positivity
      nlinarith
    exact le_min hm hc
  · intro s e d hde hd
    unfold run_game_step
    simp only
    have hp : min (e / d) 1 = 1 :=
      min_eq_right ((one_le_div hd).mpr hde)
    rw [hp]
    unfold ease_in_cubic
    rw [show (1 : ℚ) * 1 * 1 = 1 from by norm_num, mul_one]
    rw [show (1 : ℚ) + (s.crashed_at - 1) = s.crashed_at from by ring]
    exact min_self _
  · rw [hform]
    unfold crash_game_init
    norm_num

/-! ## Claim C4: no join once betting is closed -/

/-- C4.  Once `is_betting_open` is false (the state every `lock_bets` call
establishes first, and which nothing ever resets), EVERY `add_player` call
returns the "betting phase is over" rejection and leaves the ledger and the
round state — in particular the players map — untouched: the guard is the
first check, before any debit is attempted.  Join attempts and the lock run on
the same single-threaded event loop, so every join observes either the state
before or after the lock's flag write; in the post-lock state this theorem
applies to arbitrary db, round state, player, and bet. -/
theorem C4_no_join_after_lock (db : DBState) (s : RoundState) (uid : Nat)
    (bet : Int) (h : s.is_betting_open = false) :
    add_player db s uid bet = (.betting_over, db, s) := by
  unfold add_player
  rw [h]
  simp

/-- C4 witness: a concrete locked round rejects a join with no state change. -/
theorem C4_no_join_after_lock_witness :
    add_player ⟨[(4, ⟨500, 0, 0⟩)]⟩
      { players := [], current_multiplier := 1, is_betting_open := false,
        is_running := true, crashed_at := 2 } 4 25
    = (.betting_over, ⟨[(4, ⟨500, 0, 0⟩)]⟩,
      { players := [], current_multiplier := 1, is_betting_open := false,
        is_running := true, crashed_at := 2 }) :=
  C4_no_join_after_lock _ _ 4 25 rfl

/-! ## Claim C5: at most one cashout per player per round -/

/-- C5.  `cashout_player` succeeds exactly when the round is running and the
caller is a joined player with no recorded `cashout_at`; on success it records
`cashout_at = current_multiplier` at the instant of the call and immediately
credits `bet * current_multiplier` to the caller's ledger balance; the very
next cashout attempt by the same player is rejected as already-cashed-out with
both the ledger and the round state unchanged, and no attempt succeeds while
the round is not running.  (Button callbacks run on the single-threaded event
loop and `cashout_player` performs its check and its `cashout_at` write with
no await between them, so two "concurrent" attempts execute in some serial
order — which this theorem covers: the first succeeds, the second is
rejected.) -/
theorem C5_cashout_exactly_once (db : DBState) (s : RoundState) (uid : Nat)
    (pd : PlayerData) (row : EconRow)
    (hrun : s.is_running = true)
    (hpd : s.players.lookup uid = some pd)
    (hnone : pd.cashout_at = none)
    (hrow : get_user_profile db uid = some row) :
    (cashout_player db s uid).1 = .cashed_out s.current_multiplier ∧
    (cashout_player db s uid).2.2.players.lookup uid
      = some { pd with cashout_at := some s.current_multiplier } ∧
    ((cashout_player db s uid).2.1.econ.lookup uid).map EconRow.balance
      = some (row.balance + (pd.bet : ℚ) * s.current_multiplier) ∧
    cashout_player (cashout_player db s uid).2.1 (cashout_player db s uid).2.2 uid
      = (.already_cashed_out, (cashout_player db s uid).2.1,
         (cashout_player db s uid).2.2) ∧
    (∀ (db2 : DBState) (s2 : RoundState), s2.is_running = false →
      cashout_player db2 s2 uid = (.not_in_game, db2, s2)) := by
  have hstep : cashout_player db s uid
      = (CashoutResult.cashed_out s.current_multiplier,
         (update_balance db uid ((pd.bet : ℚ) * s.current_multiplier)).2,
         { s with players := s.players.map fun p =>
             if p.1 = uid then (uid, { p.2 with cashout_at := some s.current_multiplier })
             else p }) := by
    unfold cashout_player
    simp [hrun, hpd, hnone]
  have hlook : (s.players.map fun p =>
      if p.1 = uid then (uid, { p.2 with cashout_at := some s.current_multiplier })
      else p).lookup uid
      = some { pd with cashout_at := some s.current_multiplier } := by
    rw [lookup_map_update s.players uid
      (fun q => { q with cashout_at := some s.current_multiplier }), hpd]
    rfl
  refine ⟨by rw [hstep], by rw [hstep]; exact hlook, ?_, ?_, ?_⟩
  · rw [hstep]
    exact (update_balance_adds db uid _ row hrow).2
  · rw [hstep]
    unfold cashout_player
    simp only [hrun]
    simp [hlook]
  · intro db2 s2 h2
    unfold cashout_player
    simp [h2]

/-- C5 witness: one concrete running round, one joined player with no prior
cashout: the call succeeds at the current multiplier 2, credits 50 * 2 = 100
onto the balance 10, and the immediate second attempt is rejected with
nothing changed; a non-running round rejects the same player. -/
theorem C5_cashout_exactly_once_witness :
    (cashout_player ⟨[(7, ⟨10, 0, 0⟩)]⟩
        { players := [(7, ⟨50, none⟩)], current_multiplier := 2,
          is_betting_open := false, is_running := true, crashed_at := 3 } 7).1
      = .cashed_out 2 ∧
    (cashout_player ⟨[(7, ⟨10, 0, 0⟩)]⟩
        { players := [(7, ⟨50, none⟩)], current_multiplier := 2,
          is_betting_open := false, is_running := true, crashed_at := 3 } 7).2.2.players.lookup 7
      = some { bet := 50, cashout_at := some 2 } ∧
    ((cashout_player ⟨[(7, ⟨10, 0, 0⟩)]⟩
        { players := [(7, ⟨50, none⟩)], current_multiplier := 2,
          is_betting_open := false, is_running := true, crashed_at := 3 } 7).2.1.econ.lookup 7).map
        EconRow.balance
      = some (10 + (50 : ℚ) * 2) ∧
    cashout_player
        (cashout_player ⟨[(7, ⟨10, 0, 0⟩)]⟩
          { players := [(7, ⟨50, none⟩)], current_multiplier := 2,
            is_betting_open := false, is_running := true, crashed_at := 3 } 7).2.1
        (cashout_player ⟨[(7, ⟨10, 0, 0⟩)]⟩
          { players := [(7, ⟨50, none⟩)], current_multiplier := 2,
            is_betting_open := false, is_running := true, crashed_at := 3 } 7).2.2 7
      = (.already_cashed_out,
         (cashout_player ⟨[(7, ⟨10, 0, 0⟩)]⟩
           { players := [(7, ⟨50, none⟩)], current_multiplier := 2,
             is_betting_open := false, is_running := true, crashed_at := 3 } 7).2.1,
         (cashout_player ⟨[(7, ⟨10, 0, 0⟩)]⟩
           { players := [(7, ⟨50, none⟩)], current_multiplier := 2,
             is_betting_open := false, is_running := true, crashed_at := 3 } 7).2.2) ∧
    (∀ (db2 : DBState) (s2 : RoundState), s2.is_running = false →
      cashout_player db2 s2 7 = (.not_in_game, db2, s2)) :=
  C5_cashout_exactly_once _ _ 7 ⟨50, none⟩ ⟨10, 0, 0⟩ rfl rfl rfl rfl

/-! ## Claim C10: one active round per guild -/

/-- C10.  The `/crash` command is rejected — with the active-games registry
unchanged — whenever the guild's registered round is running or still has
betting open, and a round it does create is registered for that guild (in the
fresh betting-open state) only when the previously registered round, if any,
had both flags cleared, i.e. had settled (run completed) or been cancelled
(betting locked with no players). -/
theorem C10_single_active_round :
    (∀ (games : List (Nat × RoundState)) (gid : Nat) (c : ℚ) (g : RoundState),
      games.lookup gid = some g → (g.is_running || g.is_betting_open) = true →
      crash_command games gid c = (.already_in_progress, games)) ∧
    (∀ (games : List (Nat × RoundState)) (gid : Nat) (c : ℚ) (g : RoundState),
      games.lookup gid = some g → (crash_command games gid c).1 = .started →
      g.is_running = false ∧ g.is_betting_open = false) ∧
    (∀ (games : List (Nat × RoundState)) (gid : Nat) (c : ℚ),
      (crash_command games gid c).1 = .started →
      (crash_command games gid c).2.lookup gid = some (crash_game_init c) ∧
      (crash_game_init c).is_betting_open = true) := by
  refine ⟨?_, ?_, ?_⟩
  · intro games gid c g hg hact
    unfold crash_command
    rw [hg]
    simp [hact]
  · intro games gid c g hg hstart
    unfold crash_command at hstart
    simp only [hg] at hstart
    by_cases hact : (g.is_running || g.is_betting_open) = true
    · rw [if_pos hact] at hstart
      simp at hstart
    · simpa using hact
  · intro games gid c hstart
    refine ⟨?_, rfl⟩
    unfold crash_command at hstart ⊢
    cases hg : games.lookup gid with
    | none =>
      simp only [hg] at hstart ⊢
      unfold set_active_game
      rw [hg]
      simp only [Option.isSome_none, Bool.false_eq_true, if_false]
      rw [lookup_append_of_none games _ gid hg, lookup_cons_self]
    | some g =>
      simp only [hg] at hstart ⊢
      by_cases hact : (g.is_running || g.is_betting_open) = true
      · rw [if_pos hact] at hstart
        simp at hstart
      · rw [if_neg hact] at hstart ⊢
        simp only
        unfold set_active_game
        rw [hg]
        simp only [Option.isSome_some, if_true]
        rw [lookup_map_update games gid (fun _ => crash_game_init c), hg]
        rfl

/-! ## Claim C6: lock_bets is not effect-idempotent -/

/-- C6 counterexample.  The claim says a second `lock_bets` call has no
additional effect, including on outbound effects (game run / cancellation
message).  On a round with no players, the first call edits the message to
"Game Cancelled"; the SECOND call — nothing guards against it — edits it
again: the outbound-effect log after two calls is strictly longer than after
one. -/
theorem C6_counterexample :
    (lock_bets (lock_bets (crash_game_init 2) []).1
        (lock_bets (crash_game_init 2) []).2).2
      ≠ (lock_bets (crash_game_init 2) []).2 ∧
    (lock_bets (lock_bets (crash_game_init 2) []).1
        (lock_bets (crash_game_init 2) []).2).2
      = [GameEffect.cancel_edit, GameEffect.cancel_edit] := by
  constructor
  · simp [lock_bets, crash_game_init]
  · simp [lock_bets, crash_game_init]

/-- C6 amended.  `lock_bets` is idempotent on the round STATE — a second call
leaves the betting flag, the players map, the running flag and the multiplier
exactly as after the first call (and it never touches the ledger) — but it is
NOT idempotent on outbound effects: each call re-emits the cancellation edit
(empty round) or re-invokes the game run with its final-frame push (non-empty
round), so two calls always log exactly one effect more than one call. -/
theorem C6_lock_bets_state_idempotent (s : RoundState) (log : List GameEffect) :
    (lock_bets (lock_bets s log).1 (lock_bets s log).2).1 = (lock_bets s log).1 ∧
    (lock_bets (lock_bets s log).1 (lock_bets s log).2).2
      = (lock_bets s log).2
        ++ [if s.players = [] then GameEffect.cancel_edit
            else GameEffect.final_frame_edit] := by
  unfold lock_bets run_game_result
  by_cases hp : s.players = []
  · simp [hp]
  · by_cases hlt : s.current_multiplier < s.crashed_at
    · simp [hp, hlt, lt_irrefl]
    · simp [hp, hlt]

/-! ## Claim C7: the "notable items" summary is not a diff -/

/-- C7 counterexample.  The spec's own scenario: the previous snapshot has
seeds = [Cacao x2], the next adds Beanstalk.  The fingerprints differ, so an
update is triggered; but the notable-items summary built for the alert
(`_get_notable_items` / `_generate_change_summary`) receives ONLY the new
snapshot and lists EVERY allow-listed item currently in stock: it contains
"Cacao" — an allow-listed item that was already present in the previous
snapshot's seeds — contradicting the claim that such items are excluded from
the diff. -/
theorem C7_counterexample :
    calculate_data_hash ⟨[⟨"Cacao", 2⟩], [], [], some "Rain"⟩
      ≠ calculate_data_hash ⟨[⟨"Cacao", 2⟩, ⟨"Beanstalk", 1⟩], [], [], some "Rain"⟩ ∧
    "Cacao" ∈ (category_items ⟨[⟨"Cacao", 2⟩], [], [], some "Rain"⟩ "seeds").map
        StockItem.name ∧
    "Cacao" ∈ NOTABLE_SEEDS ∧
    dict_get "seeds"
        (get_notable_items ⟨[⟨"Cacao", 2⟩, ⟨"Beanstalk", 1⟩], [], [], some "Rain"⟩)
      = some ["Beanstalk", "Cacao"] ∧
    generate_change_summary ⟨[⟨"Cacao", 2⟩, ⟨"Beanstalk", 1⟩], [], [], some "Rain"⟩
      = "**Vật phẩm hiếm trong kho:**\n**🌱 Seeds**\n• Beanstalk\n• Cacao" := by
  exact ⟨by decide, by decide, by decide, by decide, by decide⟩

/-- C7 amended.  The supplementary-alert summary is computed from the new
snapshot alone (no previous snapshot is consulted): for every category of the
notable map, every item of the current snapshot whose (lowercased) name is on
that category's allow-list appears — in its original casing up to case of the
letters, i.e. equal after lowering — in the summary's category entry,
regardless of whether it was present in any earlier snapshot. -/
theorem C7_notable_lists_every_current_notable
    (d : StockData) (cat : String) (nl : List String) (disp : String)
    (hmap : (cat, nl, disp) ∈ NOTABLE_MAP)
    (it : StockItem) (hit : it ∈ category_items d cat) (hname : it.name ≠ "")
    (hlisted : py_lower it.name ∈ nl.map py_lower) :
    ∃ names, (cat, names) ∈ get_notable_items d ∧
      ∃ o ∈ names, py_lower o = py_lower it.name := by
  have hmem_named : it ∈ named_items (category_items d cat) :=
    List.mem_filter.mpr ⟨hit, by simpa using hname⟩
  have hlow_new : py_lower it.name
      ∈ ((named_items (category_items d cat)).map fun x => py_lower x.name).dedup :=
    List.mem_dedup.mpr (List.mem_map.mpr ⟨it, hmem_named, rfl⟩)
  have hcn : py_lower it.name
      ∈ ((named_items (category_items d cat)).map fun x => py_lower x.name).dedup.filter
          (fun n => n ∈ (nl.map py_lower).dedup) :=
    List.mem_filter.mpr ⟨hlow_new, by simpa using List.mem_dedup.mpr hlisted⟩
  have hfmem : it ∈ (category_items d cat).filter
      fun x => py_lower x.name = py_lower it.name :=
    List.mem_filter.mpr ⟨hit, by simp⟩
  have hcase : ∀ o, (original_casing (category_items d cat) (py_lower it.name)).getD
      (py_title (py_lower it.name)) = o → py_lower o = py_lower it.name := by
    intro o ho
    unfold original_casing at ho
    cases hgl : ((category_items d cat).filter
        fun x => py_lower x.name = py_lower it.name).getLast? with
    | none =>
      exfalso
      have hne := List.ne_nil_of_mem hfmem
      rw [← List.getLast?_isSome, hgl] at hne
      simp at hne
    | some itl =>
      have hmem_l : itl ∈ (category_items d cat).filter
          fun x => py_lower x.name = py_lower it.name := by
        obtain ⟨hnil, heq⟩ := List.mem_getLast?_eq_getLast (by rw [hgl]; rfl)
        rw [heq]
        exact List.getLast_mem hnil
      have hpred : py_lower itl.name = py_lower it.name := by
        simpa using (List.mem_filter.mp hmem_l).2
      rw [hgl] at ho
      simp at ho
      rw [← ho]
      exact hpred
  have hmem_sorted : (original_casing (category_items d cat) (py_lower it.name)).getD
      (py_title (py_lower it.name)) ∈ notable_items_for (category_items d cat) nl := by
    unfold notable_items_for
    exact mem_py_sorted.mpr (List.mem_map.mpr ⟨py_lower it.name, hcn, rfl⟩)
  refine ⟨notable_items_for (category_items d cat) nl, ?_, ?_⟩
  · unfold get_notable_items
    apply List.mem_filterMap.mpr
    refine ⟨(cat, nl, disp), hmap, ?_⟩
    simp only
    rw [if_neg (List.ne_nil_of_mem hmem_sorted)]
  · exact ⟨_, hmem_sorted, hcase _ rfl⟩

/-- C7 witness: in the counterexample's new snapshot, "Cacao" (already in
stock before) is itself listed in the summary's seeds entry. -/
theorem C7_notable_lists_every_current_notable_witness :
    ∃ names, ("seeds", names)
        ∈ get_notable_items ⟨[⟨"Cacao", 2⟩, ⟨"Beanstalk", 1⟩], [], [], some "Rain"⟩ ∧
      ∃ o ∈ names, py_lower o = py_lower (StockItem.mk "Cacao" 2).name :=
  C7_notable_lists_every_current_notable
    ⟨[⟨"Cacao", 2⟩, ⟨"Beanstalk", 1⟩], [], [], some "Rain"⟩
    "seeds" NOTABLE_SEEDS "Seeds" (by decide) ⟨"Cacao", 2⟩ (by decide)
    (by decide) (by decide)

/-! ## Claim C8: the fingerprint does not collapse duplicate names -/

/-- C8 counterexample.  Two payloads with the SAME SET of item names per
category (seeds both have exactly the name set containing only Cacao, the other
categories are empty), the same weather, and quantities differing only in how
they are split across entries: the source sorts but does NOT deduplicate the
per-category name list (`sorted(names)` over a list comprehension), so the
canonical strings ["cacao"] and ["cacao", "cacao"] differ and the MD5
fingerprints differ — the fingerprint is not a function of the name SETS. -/
theorem C8_counterexample :
    ((hash_names (category_items ⟨[⟨"Cacao", 2⟩], [], [], some "Rain"⟩ "seeds")).dedup
      = (hash_names (category_items
          ⟨[⟨"Cacao", 1⟩, ⟨"Cacao", 1⟩], [], [], some "Rain"⟩ "seeds")).dedup) ∧
    ((category_items ⟨[⟨"Cacao", 2⟩], [], [], some "Rain"⟩ "gear"
        = category_items ⟨[⟨"Cacao", 1⟩, ⟨"Cacao", 1⟩], [], [], some "Rain"⟩ "gear") ∧
     (category_items ⟨[⟨"Cacao", 2⟩], [], [], some "Rain"⟩ "eggs"
        = category_items ⟨[⟨"Cacao", 1⟩, ⟨"Cacao", 1⟩], [], [], some "Rain"⟩ "eggs")) ∧
    get_weather_type ⟨[⟨"Cacao", 2⟩], [], [], some "Rain"⟩
      = get_weather_type ⟨[⟨"Cacao", 1⟩, ⟨"Cacao", 1⟩], [], [], some "Rain"⟩ ∧
    calculate_data_hash ⟨[⟨"Cacao", 2⟩], [], [], some "Rain"⟩
      ≠ calculate_data_hash ⟨[⟨"Cacao", 1⟩, ⟨"Cacao", 1⟩], [], [], some "Rain"⟩ := by
  exact ⟨by decide, ⟨rfl, rfl⟩, rfl, by decide⟩

/-- C8 amended.  The fingerprint is a pure function of the weather label and,
per category, the MULTISET of lowercased item names (equivalently, the sorted
lowered name list) together with the emptiness of the raw category list: item
order within a category, letter case, and quantity values do not affect it —
but duplicate occurrences of the same name are retained, so payloads with
equal name SETS and different duplicate multiplicities may produce different
fingerprints (see the counterexample). -/
theorem C8_fingerprint_from_name_multisets
    (d1 d2 : StockData)
    (hw : get_weather_type d1 = get_weather_type d2)
    (hcat : ∀ cat ∈ CATEGORY_MAPPING.map Prod.fst,
      (category_items d1 cat = [] ↔ category_items d2 cat = []) ∧
      (hash_names (category_items d1 cat)).Perm (hash_names (category_items d2 cat))) :
    calculate_data_hash d1 = calculate_data_hash d2 := by
  unfold calculate_data_hash
  suffices h : canonical_string d1 = canonical_string d2 by rw [h]
  unfold canonical_string
  have hrc : relevant_categories d1 = relevant_categories d2 := by
    unfold relevant_categories
    apply List.filterMap_congr
    intro cat hcatmem
    have hmem : cat ∈ CATEGORY_MAPPING.map Prod.fst := mem_py_sorted.mp hcatmem
    obtain ⟨hiff, hperm⟩ := hcat cat hmem
    by_cases h1 : category_items d1 cat = []
    · rw [if_pos h1, if_pos (hiff.mp h1)]
    · rw [if_neg h1, if_neg fun h2 => h1 (hiff.mpr h2)]
      rw [py_sorted_eq_of_perm hperm]
  rw [hrc, hw]

/-- C8 witness: payloads with permuted entries, different letter case and
different quantities — but the same lowered name multiset per category — get
the same fingerprint. -/
theorem C8_fingerprint_from_name_multisets_witness :
    calculate_data_hash ⟨[⟨"Cacao", 2⟩, ⟨"grape", 3⟩], [], [], some "Rain"⟩
      = calculate_data_hash ⟨[⟨"Grape", 1⟩, ⟨"CACAO", 5⟩], [], [], some "Rain"⟩ :=
  C8_fingerprint_from_name_multisets
    ⟨[⟨"Cacao", 2⟩, ⟨"grape", 3⟩], [], [], some "Rain"⟩
    ⟨[⟨"Grape", 1⟩, ⟨"CACAO", 5⟩], [], [], some "Rain"⟩ rfl (by decide)

/-! ## Claim C9: per-destination failure isolation in the fan-out -/

/-- C9.  `_handle_update` gathers the per-channel update tasks with
`return_exceptions=True`: when the delivery to one destination raises, every
other destination's entry in the aggregated result list is exactly the outcome
of running its own delivery on its own channel state — computed from that
channel's state alone, so the failure neither aborts nor alters any sibling
delivery — and the failing destination's exception occupies its own slot,
after which the error loop logs that destination's identity. -/
theorem C9_fanout_failure_isolated
    (hs : Bool) (pre post : List (Nat × ChanState)) (cid : Nat)
    (cst failed_state : ChanState)
    (hfail : update_channel hs cst = .raised failed_state) :
    (handle_update hs (pre ++ (cid, cst) :: post)).1
      = (pre.map fun p => (p.1, update_channel hs p.2))
        ++ ((cid, ChanOutcome.raised failed_state)
          :: post.map fun p => (p.1, update_channel hs p.2)) ∧
    cid ∈ (handle_update hs (pre ++ (cid, cst) :: post)).2 := by
  constructor
  · unfold handle_update
    simp only [List.map_append, List.map_cons, hfail]
  · unfold handle_update
    simp only
    apply List.mem_filterMap.mpr
    refine ⟨(cid, ChanOutcome.raised failed_state), ?_, rfl⟩
    rw [List.map_append, List.map_cons, hfail]
    exact List.mem_append.mpr (Or.inr (List.mem_cons_self _ _))

/-- C9 witness: three destinations; the middle one's alert fetch raises, the
other two complete their deliveries, and the failing channel id 2 is logged. -/
theorem C9_fanout_failure_isolated_witness :
    (handle_update true
        ([(1, ⟨none, none, [], 20, false⟩)]
          ++ (2, ⟨some 9, some 5, [5, 9], 30, true⟩)
            :: [(3, ⟨some 8, none, [8], 40, false⟩)])).1
      = ([(1, ⟨none, none, [], 20, false⟩)].map fun p => (p.1, update_channel true p.2))
        ++ ((2, ChanOutcome.raised ⟨some 9, some 5, [5, 9], 30, true⟩)
          :: [(3, ⟨some 8, none, [8], 40, false⟩)].map fun p =>
              (p.1, update_channel true p.2)) ∧
    2 ∈ (handle_update true
        ([(1, ⟨none, none, [], 20, false⟩)]
          ++ (2, ⟨some 9, some 5, [5, 9], 30, true⟩)
            :: [(3, ⟨some 8, none, [8], 40, false⟩)])).2 :=
  C9_fanout_failure_isolated true
    [(1, ⟨none, none, [], 20, false⟩)] [(3, ⟨some 8, none, [8], 40, false⟩)]
    2 ⟨some 9, some 5, [5, 9], 30, true⟩ ⟨some 9, some 5, [5, 9], 30, true⟩ rfl

end InuBot
